import Mathlib

/-!
Shallow embedding of `socketserver/server/backend.go` (FrankerFaceZ socket
server backend RPC layer).

Modelling conventions:
* Time is an abstract instant carried as an `Int` (seconds); `time.Now().UTC()`
  becomes an explicit `now : Int` parameter taken once per call, exactly as the
  Go code samples the clock once per successful call.
* The mutable fields `backendInfo.responseCache` (a TTL cache) and
  `backendInfo.lastSuccess` (the health map) become an explicit `BackendState`
  threaded through each operation.
* The TTL cache (`github.com/patrickmn/go-cache`) is an external collaborator;
  it is modelled at the interface the spec gives it: `Set k v d` stores the
  value with expiry `now + d` (a minimum retention time) and `Get` is absent
  if expired.  Entries are an association list keyed by the cache key.
* The NaCl sealing step (`naclform`, outside this file's source) and the HTTP
  transport are external effects: a call's interaction with them is an input
  `CallOutcome` - seal failure, transport failure, or an `HttpResponse`.
* `ioutil.ReadAll(resp.Body)` may fail, so the body arrives as
  `Except String String` (error message or body text).
* Go's `(value, error)` returns become `Except BackendError String` (an
  `Except.error` corresponds to Go returning the zero value `""` plus a
  non-nil error) or `Option BackendError` for `error`-only functions.
* The backend's JSON codec (`encoding/json`) is external; an untyped JSON
  value is the inductive `Json` (numbers as `Int`, strings unescaped), and
  `json.Unmarshal` is an abstract parameter `jsonUnmarshal` of the call.
  `json.Marshal` of an untyped value is the compact serializer `jsonCompact`.
-/

/-- The four fixed backend path constants of `backend.go`. -/
def bPathAnnounceStartup : String := "/startup"

def bPathAddTopic : String := "/topics"

def bPathAggStats : String := "/stats"

def bPathOtherCommand : String := "/cmd/"

/-- Modelled from the spec: `AuthInfo` is declared outside this source file;
the spec gives it as the value object with a Twitch username and a validation
flag, matching the two field accesses in `backend.go`. -/
structure AuthInfo where
  TwitchUsername : String
  UsernameValidated : Bool
deriving DecidableEq, Repr

/-- An untyped JSON value, the model of Go's `interface\x7b\x7d` holding a
decoded JSON document.  Numbers are modelled as integers (Go uses float64;
floating point is out of scope) and strings are taken escape-free. -/
inductive Json where
  | null : Json
  | bool (b : Bool) : Json
  | num (n : Int) : Json
  | str (s : String) : Json
  | arr (elems : List Json) : Json
  | obj (fields : List (String × Json)) : Json

mutual

/-- Compact serialization of an untyped JSON value, the model of
`json.Marshal` applied to a decoded `interface\x7b\x7d` value (Go emits no
insignificant whitespace). -/
def jsonCompact : Json → String
  | Json.null => "null"
  | Json.bool true => "true"
  | Json.bool false => "false"
  | Json.num n => toString n
  | Json.str s => "\"" ++ s ++ "\""
  | Json.arr xs => "[" ++ jsonCompactArr xs ++ "]"
  | Json.obj kvs => "\x7b" ++ jsonCompactObj kvs ++ "\x7d"

/-- Comma-joined compact serialization of array elements. -/
def jsonCompactArr : List Json → String
  | [] => ""
  | [x] => jsonCompact x
  | x :: y :: xs => jsonCompact x ++ "," ++ jsonCompactArr (y :: xs)

/-- Comma-joined compact serialization of object fields. -/
def jsonCompactObj : List (String × Json) → String
  | [] => ""
  | [(k, v)] => "\"" ++ k ++ "\":" ++ jsonCompact v
  | (k, v) :: kv :: kvs =>
      "\"" ++ k ++ "\":" ++ jsonCompact v ++ "," ++ jsonCompactObj (kv :: kvs)

end

/-- The structured errors this layer can return, one constructor per `return`
site of an error in `backend.go`. -/
inductive BackendError where
  | sealError (msg : String) : BackendError
  | transportError (msg : String) : BackendError
  | bodyReadError (msg : String) : BackendError
  | authorizationNeeded : BackendError
  | forwardedFromBackend (j : Json) : BackendError
  | jsonDecodeError (decodeMsg : String) (body : String) : BackendError
  | cacheDurationError (header : String) : BackendError
  | httpError (code : Int) : BackendError
  | backendNotOK (code : Int) (response : String) : BackendError

/-- The `Error()` string of each error, from the `Error` methods and
`fmt.Errorf` format strings in `backend.go`.  Seal, transport and body-read
failures are propagated unwrapped, so their string is the underlying message.
`cacheDurationError` carries the offending header value in the position where
Go interpolates the `strconv` error text. -/
def errorString : BackendError → String
  | BackendError.sealError msg => msg
  | BackendError.transportError msg => msg
  | BackendError.bodyReadError msg => msg
  | BackendError.authorizationNeeded =>
      "Must authenticate Twitch username to use this command"
  | BackendError.forwardedFromBackend j => jsonCompact j
  | BackendError.jsonDecodeError decodeMsg body =>
      "error decoding json error from backend: " ++ decodeMsg ++ " | " ++ body
  | BackendError.cacheDurationError header =>
      "The RPC server returned a non-integer cache duration: " ++ header
  | BackendError.httpError code => "backend http error: " ++ toString code
  | BackendError.backendNotOK code response =>
      "backend returned " ++ toString code ++ ": " ++ response

/-- The mutable state of `backendInfo`: the TTL response cache (key, value,
absolute expiry instant) and the `lastSuccess` health map (bucket, last
success instant). -/
structure BackendState where
  responseCache : List (String × String × Int)
  lastSuccess : List (String × Int)
deriving DecidableEq, Repr

/-- TTL cache `Set`: overwrite the key with the value and absolute expiry. -/
def cacheSet (c : List (String × String × Int)) (key value : String)
    (expiry : Int) : List (String × String × Int) :=
  (key, value, expiry) :: c.filter (fun entry => entry.1 != key)

/-- Raw cache entry for a key: the stored value and its absolute expiry. -/
def cacheEntry (c : List (String × String × Int)) (key : String) :
    Option (String × Int) :=
  c.lookup key

/-- TTL cache `Get` at instant `now`: absent if missing or expired. -/
def cacheGet (c : List (String × String × Int)) (key : String) (now : Int) :
    Option String :=
  match c.lookup key with
  | some (value, expiry) => if now ≤ expiry then some value else none
  | none => none

/-- Overwrite a health bucket's last-success instant. -/
def healthSet (m : List (String × Int)) (bucket : String) (t : Int) :
    List (String × Int) :=
  (bucket, t) :: m.filter (fun entry => entry.1 != bucket)

/-- Read a health bucket's last-success instant. -/
def healthGet (m : List (String × Int)) (bucket : String) : Option Int :=
  m.lookup bucket

/-- The state `setupBackend` builds: empty cache, the four fixed buckets at
the Unix epoch. -/
def initialBackendState : BackendState :=
  ⟨[], [(bPathAnnounceStartup, 0), (bPathAddTopic, 0), (bPathAggStats, 0),
        (bPathOtherCommand, 0)]⟩

/-- Cache key of `getCacheKey`: `fmt.Sprintf("%s/%s", remoteCommand, data)`.
It does not mention `AuthInfo`. -/
def getCacheKey (remoteCommand data : String) : String :=
  remoteCommand ++ "/" ++ data

/-- The relevant response data of one HTTP round trip: status code, the
`Content-Type` and `FFZ-Cache` header values (`""` when absent, as
`http.Header.Get` reports a missing header), and the result of reading the
body. -/
structure HttpResponse where
  statusCode : Int
  contentType : String
  ffzCache : String
  bodyRead : Except String String
deriving Repr

/-- What the external seal + HTTP transport pair did for one call: the seal
step failed, the POST failed at the transport level, or a response arrived. -/
inductive CallOutcome where
  | sealFailure (msg : String) : CallOutcome
  | transportFailure (msg : String) : CallOutcome
  | response (resp : HttpResponse) : CallOutcome
deriving Repr

/-- `url.Values.Set`: replace any existing values of the key by the single
given value.  The association list order is irrelevant (Go maps are
unordered). -/
def formSet (form : List (String × String)) (key value : String) :
    List (String × String) :=
  (form.filter (fun entry => entry.1 != key)) ++ [(key, value)]

/-- The logical field set `SendRemoteCommand` builds and seals:
`clientData`, `username`, and `authenticated` as `"1"` or `"0"`. -/
def remoteCommandForm (data : String) (auth : AuthInfo) :
    List (String × String) :=
  formSet (formSet (formSet [] "clientData" data) "username"
    auth.TwitchUsername) "authenticated"
    (if auth.UsernameValidated then "1" else "0")

/-- Strip a trailing chunk of whitespace from the back, then from the front,
the model of Go's `strings.TrimSpace` (restricted to ASCII whitespace). -/
def trimChars (cs : List Char) : List Char :=
  ((cs.dropWhile Char.isWhitespace).reverse.dropWhile Char.isWhitespace).reverse

/-- The inlined media-type handling of `SendRemoteCommand`: only when the
`Content-Type` value contains a semicolon is the part before the first
semicolon kept and trimmed; a value without a semicolon is used verbatim. -/
def stripContentType (typeStr : String) : String :=
  if typeStr.toList.contains ';' then
    String.mk (trimChars (typeStr.toList.takeWhile (fun c => c != ';')))
  else typeStr

/-- Per the spec's words for claim comparison: strip everything from the
first semicolon onward and trim whitespace, unconditionally. -/
def specStripContentType (typeStr : String) : String :=
  String.mk (trimChars (typeStr.toList.takeWhile (fun c => c != ';')))

/-- Accumulate decimal digits; any non-digit character rejects the string. -/
def parseDecDigits : List Char → Nat → Option Nat
  | [], acc => some acc
  | c :: cs, acc =>
      if c.isDigit then parseDecDigits cs (acc * 10 + (c.toNat - 48))
      else none

/-- The model of `strconv.ParseInt(s, 10, 64)`: optional single sign, at
least one decimal digit, result within the signed 64-bit range. -/
def parseInt64 (s : String) : Option Int :=
  match s.toList with
  | [] => none
  | '+' :: [] => none
  | '+' :: c :: cs =>
      (parseDecDigits (c :: cs) 0).bind fun n =>
        if n ≤ 9223372036854775807 then some (Int.ofNat n) else none
  | '-' :: [] => none
  | '-' :: c :: cs =>
      (parseDecDigits (c :: cs) 0).bind fun n =>
        if n ≤ 9223372036854775808 then some (-(Int.ofNat n)) else none
  | c :: cs =>
      (parseDecDigits (c :: cs) 0).bind fun n =>
        if n ≤ 9223372036854775807 then some (Int.ofNat n) else none

/-- The cache-hint step of `SendRemoteCommand` on a 2xx response (backend.go
lines 184-195): no `FFZ-Cache` header leaves the state unchanged; a
non-integer value fails the call; an integer value stores the response under
the cache key with expiry `now + durSecs` seconds. -/
def remoteCommandCacheStep (st : BackendState)
    (remoteCommand data responseStr ffzCache : String) (now : Int) :
    Except BackendError BackendState :=
  if ffzCache = "" then Except.ok st
  else
    match parseInt64 ffzCache with
    | none => Except.error (BackendError.cacheDurationError ffzCache)
    | some durSecs =>
        Except.ok
          { st with responseCache :=
              (cacheSet st.responseCache (getCacheKey remoteCommand data)
                responseStr (now + durSecs)) }

/-- The model of `SendRemoteCommand` (backend.go lines 128-204).  The external
seal and transport steps are summarized by `outcome`; `now` is the instant the
call samples the clock; `jsonUnmarshal` is the external `json.Unmarshal` into
an untyped value.  The result pairs the new mutable state with Go's
`(responseStr, err)` return, as an `Except`. -/
def SendRemoteCommand (st : BackendState) (remoteCommand data : String)
    (auth : AuthInfo) (outcome : CallOutcome) (now : Int)
    (jsonUnmarshal : String → Except String Json) :
    BackendState × Except BackendError String :=
  match outcome with
  | CallOutcome.sealFailure msg => (st, Except.error (BackendError.sealError msg))
  | CallOutcome.transportFailure msg =>
      (st, Except.error (BackendError.transportError msg))
  | CallOutcome.response resp =>
    match resp.bodyRead with
    | Except.error msg => (st, Except.error (BackendError.bodyReadError msg))
    | Except.ok responseStr =>
      if resp.statusCode = 401 then
        (st, Except.error BackendError.authorizationNeeded)
      else if resp.statusCode < 200 ∨ resp.statusCode > 299 then
        if stripContentType resp.contentType = "application/json" then
          match jsonUnmarshal responseStr with
          | Except.error decodeMsg =>
              (st, Except.error (BackendError.jsonDecodeError decodeMsg responseStr))
          | Except.ok j =>
              (st, Except.error (BackendError.forwardedFromBackend j))
        else
          (st, Except.error (BackendError.httpError resp.statusCode))
      else
        match remoteCommandCacheStep st remoteCommand data responseStr
          resp.ffzCache now with
        | Except.error e => (st, Except.error e)
        | Except.ok st1 =>
            ({ st1 with lastSuccess :=
                 (healthSet (healthSet st1.lastSuccess bPathOtherCommand now)
                   ("/cmd/" ++ remoteCommand) now) },
             Except.ok responseStr)

/-- The model of `SendRemoteCommandCached` (backend.go lines 103-110): check
the cache under `getCacheKey`; on a hit return the cached string, otherwise
delegate synchronously to `SendRemoteCommand` (the `outcome` describes what
the network would do if contacted; it is unused on a hit). -/
def SendRemoteCommandCached (st : BackendState) (remoteCommand data : String)
    (auth : AuthInfo) (outcome : CallOutcome) (now : Int)
    (jsonUnmarshal : String → Except String Json) :
    BackendState × Except BackendError String :=
  match cacheGet st.responseCache (getCacheKey remoteCommand data) now with
  | some cached => (st, Except.ok cached)
  | none => SendRemoteCommand st remoteCommand data auth outcome now jsonUnmarshal

/-- The model of `SendAggregatedData` (backend.go lines 207-227): seal the
caller's form, POST to the statistics URL; non-2xx yields `httpError` with
the body never read; 2xx updates only the aggregate-stats bucket. -/
def SendAggregatedData (st : BackendState) (outcome : CallOutcome) (now : Int) :
    BackendState × Option BackendError :=
  match outcome with
  | CallOutcome.sealFailure msg => (st, some (BackendError.sealError msg))
  | CallOutcome.transportFailure msg =>
      (st, some (BackendError.transportError msg))
  | CallOutcome.response resp =>
    if resp.statusCode < 200 ∨ resp.statusCode > 299 then
      (st, some (BackendError.httpError resp.statusCode))
    else
      ({ st with lastSuccess := healthSet st.lastSuccess bPathAggStats now }, none)

/-- The field set `sendTopicNotice` builds and seals: `channels` is the
topic string, `added` is `"t"` or `"f"`. -/
def topicNoticeForm (topic : String) (added : Bool) : List (String × String) :=
  formSet (formSet [] "channels" topic) "added" (if added then "t" else "f")

/-- The model of `sendTopicNotice` (backend.go lines 256-289): the first
component is the field set built and handed to `Seal` (the observable request
content); on non-2xx the body is read (a read failure is wrapped into the
`ErrBackendNotOK` response text) and `backendNotOK` is returned; on 2xx only
the add-topic bucket is updated. -/
def sendTopicNotice (st : BackendState) (topic : String) (added : Bool)
    (outcome : CallOutcome) (now : Int) :
    List (String × String) × BackendState × Option BackendError :=
  (topicNoticeForm topic added,
   match outcome with
   | CallOutcome.sealFailure msg => (st, some (BackendError.sealError msg))
   | CallOutcome.transportFailure msg =>
       (st, some (BackendError.transportError msg))
   | CallOutcome.response resp =>
     if resp.statusCode < 200 ∨ resp.statusCode > 299 then
       match resp.bodyRead with
       | Except.error msg =>
           (st, some (BackendError.backendNotOK resp.statusCode
             ("(error reading non-2xx response): " ++ msg)))
       | Except.ok body =>
           (st, some (BackendError.backendNotOK resp.statusCode body))
     else
       ({ st with lastSuccess := healthSet st.lastSuccess bPathAddTopic now },
        none))

/-- The model of `SendNewTopicNotice` (backend.go lines 244-246). -/
def SendNewTopicNotice (st : BackendState) (topic : String)
    (outcome : CallOutcome) (now : Int) :
    List (String × String) × BackendState × Option BackendError :=
  sendTopicNotice st topic true outcome now

/-- The model of `SendCleanupTopicsNotice` (backend.go lines 252-254):
comma-join the topics and mark `added = false`. -/
def SendCleanupTopicsNotice (st : BackendState) (topics : List String)
    (outcome : CallOutcome) (now : Int) :
    List (String × String) × BackendState × Option BackendError :=
  sendTopicNotice st (String.intercalate "," topics) false outcome now

/-! Association-list lemmas for the cache and health maps. -/

theorem lookup_filter_ne {β : Type} (k k' : String) (h : k' ≠ k)
    (m : List (String × β)) :
    (m.filter (fun entry => entry.1 != k)).lookup k' = m.lookup k' := by
  induction m with
  | nil => rfl
  | cons e m ih =>
    rcases e with ⟨ek, ev⟩
    by_cases hek : ek = k
    · subst hek
      simp_all [List.filter_cons, List.lookup]
      have hb : (k' == ek) = false := by simp [h]
      rw [hb]
    · by_cases hk : k' = ek <;> simp_all [List.filter_cons, List.lookup]

theorem healthGet_healthSet_self (m : List (String × Int)) (k : String)
    (t : Int) : healthGet (healthSet m k t) k = some t := by
  simp [healthGet, healthSet, List.lookup]

theorem healthGet_healthSet_ne (m : List (String × Int)) (k k' : String)
    (t : Int) (h : k' ≠ k) : healthGet (healthSet m k t) k' = healthGet m k' := by
  have hb : (k' == k) = false := by simp [h]
  simp [healthGet, healthSet, List.lookup, hb, lookup_filter_ne k k' h m]

theorem healthGet_healthSet_pair (m : List (String × Int)) (k1 k2 : String)
    (t : Int) : healthGet (healthSet (healthSet m k1 t) k2 t) k1 = some t := by
  by_cases h : k1 = k2
  · subst h
    exact healthGet_healthSet_self (healthSet m k1 t) k1 t
  · rw [healthGet_healthSet_ne (healthSet m k1 t) k2 k1 t h]
    exact healthGet_healthSet_self m k1 t

theorem cacheEntry_cacheSet_self (c : List (String × String × Int))
    (k v : String) (e : Int) : cacheEntry (cacheSet c k v e) k = some (v, e) := by
  simp [cacheEntry, cacheSet, List.lookup]

/-- Claim C2: `SendRemoteCommandCached` returns an unexpired cached entry for
the (command, data) key with no error and no network interaction (the result
does not depend on the call outcome and the state is untouched); on a miss it
is exactly a synchronous `SendRemoteCommand` call, with no background
refresh. -/
theorem sendRemoteCommandCached_hit_or_delegates
    (st : BackendState) (remoteCommand data : String) (auth : AuthInfo)
    (outcome : CallOutcome) (now : Int) (ju : String → Except String Json) :
    (∀ v, cacheGet st.responseCache (getCacheKey remoteCommand data) now =
        some v →
      SendRemoteCommandCached st remoteCommand data auth outcome now ju =
        (st, Except.ok v)) ∧
    (cacheGet st.responseCache (getCacheKey remoteCommand data) now = none →
      SendRemoteCommandCached st remoteCommand data auth outcome now ju =
        SendRemoteCommand st remoteCommand data auth outcome now ju) := by
  constructor
  · intro v hv
    simp [SendRemoteCommandCached, hv]
  · intro hn
    simp [SendRemoteCommandCached, hn]

/-- Witness for C2: a hit at a concrete cached state returns the cached body
even though the network is down, and a miss on the empty cache delegates. -/
theorem sendRemoteCommandCached_hit_or_delegates_witness :
    SendRemoteCommandCached ⟨[("echo/x", "BODY", 105)], []⟩ "echo" "x"
      ⟨"alice", true⟩ (CallOutcome.transportFailure "down") 100
      (fun _ => Except.error "no") =
      (⟨[("echo/x", "BODY", 105)], []⟩, Except.ok "BODY") ∧
    SendRemoteCommandCached ⟨[], []⟩ "echo" "x" ⟨"alice", true⟩
      (CallOutcome.transportFailure "down") 100 (fun _ => Except.error "no") =
      SendRemoteCommand ⟨[], []⟩ "echo" "x" ⟨"alice", true⟩
        (CallOutcome.transportFailure "down") 100 (fun _ => Except.error "no") :=
  ⟨(sendRemoteCommandCached_hit_or_delegates ⟨[("echo/x", "BODY", 105)], []⟩
      "echo" "x" ⟨"alice", true⟩ (CallOutcome.transportFailure "down") 100
      (fun _ => Except.error "no")).1 "BODY" rfl,
   (sendRemoteCommandCached_hit_or_delegates ⟨[], []⟩ "echo" "x"
      ⟨"alice", true⟩ (CallOutcome.transportFailure "down") 100
      (fun _ => Except.error "no")).2 rfl⟩

/-- Claim C3: the cache key depends only on (command, data), never on
`AuthInfo`; on a hit, two `SendRemoteCommandCached` calls with identical
(command, data) but arbitrary different auth values both return the same
cached value. -/
theorem sendRemoteCommandCached_authInfo_insensitive
    (st : BackendState) (remoteCommand data : String) (a1 a2 : AuthInfo)
    (o1 o2 : CallOutcome) (now : Int) (ju1 ju2 : String → Except String Json)
    (v : String)
    (hv : cacheGet st.responseCache (getCacheKey remoteCommand data) now =
      some v) :
    (SendRemoteCommandCached st remoteCommand data a1 o1 now ju1).2 =
      Except.ok v ∧
    (SendRemoteCommandCached st remoteCommand data a2 o2 now ju2).2 =
      Except.ok v := by
  constructor <;> simp [SendRemoteCommandCached, hv]

/-- Witness for C3 at a concrete state, with different usernames and
validation flags. -/
theorem sendRemoteCommandCached_authInfo_insensitive_witness :
    (SendRemoteCommandCached ⟨[("echo/x", "BODY", 105)], []⟩ "echo" "x"
        ⟨"alice", true⟩ (CallOutcome.transportFailure "down") 100
        (fun _ => Except.error "no")).2 = Except.ok "BODY" ∧
    (SendRemoteCommandCached ⟨[("echo/x", "BODY", 105)], []⟩ "echo" "x"
        ⟨"bob", false⟩ (CallOutcome.transportFailure "other") 100
        (fun _ => Except.error "no")).2 = Except.ok "BODY" :=
  sendRemoteCommandCached_authInfo_insensitive ⟨[("echo/x", "BODY", 105)], []⟩
    "echo" "x" ⟨"alice", true⟩ ⟨"bob", false⟩
    (CallOutcome.transportFailure "down") (CallOutcome.transportFailure "other")
    100 (fun _ => Except.error "no") (fun _ => Except.error "no") "BODY" rfl

/-- Claim C4: a 401 response with a readable body makes `SendRemoteCommand`
return the empty response and exactly the `ErrAuthorizationNeeded` sentinel,
whatever the body and content type are. -/
theorem sendRemoteCommand_401_authorizationNeeded
    (st : BackendState) (remoteCommand data : String) (auth : AuthInfo)
    (resp : HttpResponse) (now : Int) (ju : String → Except String Json)
    (body : String)
    (hbody : resp.bodyRead = Except.ok body)
    (h401 : resp.statusCode = 401) :
    SendRemoteCommand st remoteCommand data auth (CallOutcome.response resp)
      now ju = (st, Except.error BackendError.authorizationNeeded) := by
  rcases resp with ⟨sc, ct, ffz, br⟩
  simp only at hbody h401
  subst hbody h401
  simp [SendRemoteCommand]

/-- Witness for C4 at a concrete 401 response carrying a JSON body. -/
theorem sendRemoteCommand_401_authorizationNeeded_witness :
    SendRemoteCommand ⟨[], []⟩ "echo" "x" ⟨"alice", true⟩
      (CallOutcome.response ⟨401, "application/json", "",
        Except.ok "denied"⟩) 100 (fun _ => Except.error "no") =
      (⟨[], []⟩, Except.error BackendError.authorizationNeeded) :=
  sendRemoteCommand_401_authorizationNeeded ⟨[], []⟩ "echo" "x"
    ⟨"alice", true⟩ ⟨401, "application/json", "", Except.ok "denied"⟩ 100
    (fun _ => Except.error "no") "denied" rfl rfl

/-- Claim C6: a 2xx response with a non-empty `FFZ-Cache` header that does
not parse as an integer fails the whole call: empty response, a cache
duration error naming the header. -/
theorem sendRemoteCommand_malformed_cache_hint_fails_call
    (st : BackendState) (remoteCommand data : String) (auth : AuthInfo)
    (resp : HttpResponse) (now : Int) (ju : String → Except String Json)
    (body : String)
    (h2xx : 200 ≤ resp.statusCode ∧ resp.statusCode ≤ 299)
    (hbody : resp.bodyRead = Except.ok body)
    (hffz : resp.ffzCache ≠ "")
    (hdur : parseInt64 resp.ffzCache = none) :
    SendRemoteCommand st remoteCommand data auth (CallOutcome.response resp)
      now ju =
      (st, Except.error (BackendError.cacheDurationError resp.ffzCache)) := by
  rcases resp with ⟨sc, ct, ffz, br⟩
  simp only at hbody hffz hdur h2xx ⊢
  subst hbody
  obtain ⟨hlo, hhi⟩ := h2xx
  have h401 : ¬ sc = 401 := by omega
  have hrange : ¬ (sc < 200 ∨ sc > 299) := by omega
  simp [SendRemoteCommand, remoteCommandCacheStep, h401, hrange, hffz, hdur]

/-- Witness for C6 at a concrete 200 response whose hint is `"abc"`. -/
theorem sendRemoteCommand_malformed_cache_hint_fails_call_witness :
    SendRemoteCommand ⟨[], []⟩ "echo" "x" ⟨"alice", true⟩
      (CallOutcome.response ⟨200, "text/plain", "abc", Except.ok "BODY"⟩) 100
      (fun _ => Except.error "no") =
      (⟨[], []⟩, Except.error (BackendError.cacheDurationError "abc")) :=
  sendRemoteCommand_malformed_cache_hint_fails_call ⟨[], []⟩ "echo" "x"
    ⟨"alice", true⟩ ⟨200, "text/plain", "abc", Except.ok "BODY"⟩ 100
    (fun _ => Except.error "no") "BODY" (by constructor <;> decide) rfl
    (by decide) rfl

/-- C9 counterexample: on a concrete call whose body read fails with message
`"read failure"`, `SendRemoteCommand` returns that error unwrapped - its
`Error()` string is exactly the raw read error message, with no explanatory
context added - contradicting the claim that it is wrapped. -/
theorem sendRemoteCommand_body_read_error_counterexample :
    (SendRemoteCommand ⟨[], []⟩ "echo" "x" ⟨"alice", true⟩
        (CallOutcome.response ⟨200, "text/plain", "",
          Except.error "read failure"⟩) 100 (fun _ => Except.error "no")).2 =
      Except.error (BackendError.bodyReadError "read failure") ∧
    errorString (BackendError.bodyReadError "read failure") = "read failure" :=
  ⟨rfl, rfl⟩

/-- Claim C9 (amended): when reading the response body fails,
`SendRemoteCommand` returns the raw body-read error unwrapped (with the empty
response); its error string is exactly the underlying read error message. -/
theorem sendRemoteCommand_body_read_error_unwrapped
    (st : BackendState) (remoteCommand data : String) (auth : AuthInfo)
    (resp : HttpResponse) (now : Int) (ju : String → Except String Json)
    (msg : String)
    (hbody : resp.bodyRead = Except.error msg) :
    SendRemoteCommand st remoteCommand data auth (CallOutcome.response resp)
      now ju = (st, Except.error (BackendError.bodyReadError msg)) ∧
    errorString (BackendError.bodyReadError msg) = msg := by
  rcases resp with ⟨sc, ct, ffz, br⟩
  simp only at hbody
  subst hbody
  exact ⟨rfl, rfl⟩

/-- Witness for the amended C9 at a concrete failing body read. -/
theorem sendRemoteCommand_body_read_error_unwrapped_witness :
    SendRemoteCommand ⟨[], []⟩ "echo" "x" ⟨"alice", true⟩
      (CallOutcome.response ⟨200, "text/plain", "", Except.error "boom"⟩) 100
      (fun _ => Except.error "no") =
      (⟨[], []⟩, Except.error (BackendError.bodyReadError "boom")) ∧
    errorString (BackendError.bodyReadError "boom") = "boom" :=
  sendRemoteCommand_body_read_error_unwrapped ⟨[], []⟩ "echo" "x"
    ⟨"alice", true⟩ ⟨200, "text/plain", "", Except.error "boom"⟩ 100
    (fun _ => Except.error "no") "boom" rfl

/-- Claim C10: failing on a malformed `FFZ-Cache` hint is atomic - the
returned state is untouched: no cache entry for the call's key is written and
neither the command bucket nor the generic command bucket is updated. -/
theorem sendRemoteCommand_malformed_cache_hint_no_side_effects
    (st : BackendState) (remoteCommand data : String) (auth : AuthInfo)
    (resp : HttpResponse) (now : Int) (ju : String → Except String Json)
    (body : String)
    (h2xx : 200 ≤ resp.statusCode ∧ resp.statusCode ≤ 299)
    (hbody : resp.bodyRead = Except.ok body)
    (hffz : resp.ffzCache ≠ "")
    (hdur : parseInt64 resp.ffzCache = none) :
    (SendRemoteCommand st remoteCommand data auth (CallOutcome.response resp)
        now ju).1 = st ∧
    cacheEntry (SendRemoteCommand st remoteCommand data auth
        (CallOutcome.response resp) now ju).1.responseCache
        (getCacheKey remoteCommand data) =
      cacheEntry st.responseCache (getCacheKey remoteCommand data) ∧
    healthGet (SendRemoteCommand st remoteCommand data auth
        (CallOutcome.response resp) now ju).1.lastSuccess
        ("/cmd/" ++ remoteCommand) =
      healthGet st.lastSuccess ("/cmd/" ++ remoteCommand) ∧
    healthGet (SendRemoteCommand st remoteCommand data auth
        (CallOutcome.response resp) now ju).1.lastSuccess bPathOtherCommand =
      healthGet st.lastSuccess bPathOtherCommand := by
  rcases resp with ⟨sc, ct, ffz, br⟩
  simp only at hbody hffz hdur h2xx
  subst hbody
  obtain ⟨hlo, hhi⟩ := h2xx
  have h401 : ¬ sc = 401 := by omega
  have hrange : ¬ (sc < 200 ∨ sc > 299) := by omega
  have h : SendRemoteCommand st remoteCommand data auth
      (CallOutcome.response ⟨sc, ct, ffz, Except.ok body⟩) now ju =
      (st, Except.error (BackendError.cacheDurationError ffz)) := by
    simp [SendRemoteCommand, remoteCommandCacheStep, h401, hrange, hffz, hdur]
  rw [h]
  exact ⟨rfl, rfl, rfl, rfl⟩

/-- Witness for C10 at a concrete 200 response whose hint is `"5s"`. -/
theorem sendRemoteCommand_malformed_cache_hint_no_side_effects_witness :
    (SendRemoteCommand ⟨[("echo/x", "OLD", 104)], [("/cmd/", 7)]⟩ "echo" "x"
        ⟨"alice", true⟩ (CallOutcome.response ⟨200, "text/plain", "5s",
          Except.ok "BODY"⟩) 100 (fun _ => Except.error "no")).1 =
      ⟨[("echo/x", "OLD", 104)], [("/cmd/", 7)]⟩ ∧
    cacheEntry (SendRemoteCommand ⟨[("echo/x", "OLD", 104)], [("/cmd/", 7)]⟩
        "echo" "x" ⟨"alice", true⟩ (CallOutcome.response ⟨200, "text/plain",
          "5s", Except.ok "BODY"⟩) 100
        (fun _ => Except.error "no")).1.responseCache
        (getCacheKey "echo" "x") =
      cacheEntry [("echo/x", "OLD", 104)] (getCacheKey "echo" "x") ∧
    healthGet (SendRemoteCommand ⟨[("echo/x", "OLD", 104)], [("/cmd/", 7)]⟩
        "echo" "x" ⟨"alice", true⟩ (CallOutcome.response ⟨200, "text/plain",
          "5s", Except.ok "BODY"⟩) 100
        (fun _ => Except.error "no")).1.lastSuccess ("/cmd/" ++ "echo") =
      healthGet [("/cmd/", 7)] ("/cmd/" ++ "echo") ∧
    healthGet (SendRemoteCommand ⟨[("echo/x", "OLD", 104)], [("/cmd/", 7)]⟩
        "echo" "x" ⟨"alice", true⟩ (CallOutcome.response ⟨200, "text/plain",
          "5s", Except.ok "BODY"⟩) 100
        (fun _ => Except.error "no")).1.lastSuccess bPathOtherCommand =
      healthGet [("/cmd/", 7)] bPathOtherCommand :=
  sendRemoteCommand_malformed_cache_hint_no_side_effects
    ⟨[("echo/x", "OLD", 104)], [("/cmd/", 7)]⟩ "echo" "x" ⟨"alice", true⟩
    ⟨200, "text/plain", "5s", Except.ok "BODY"⟩ 100
    (fun _ => Except.error "no") "BODY" (by constructor <;> decide) rfl
    (by decide) rfl

/-- Claim C1: a 2xx response whose `FFZ-Cache` header parses as the integer
`n` makes `SendRemoteCommand` store the body under the (command, data) cache
key with expiry `now + n` seconds, set both the command-specific bucket
`/cmd/<command>` and the generic `/cmd/` bucket to `now`, and return the body
with no error. -/
theorem sendRemoteCommand_2xx_cache_hint
    (st : BackendState) (remoteCommand data : String) (auth : AuthInfo)
    (resp : HttpResponse) (now : Int) (ju : String → Except String Json)
    (body : String) (n : Int)
    (h2xx : 200 ≤ resp.statusCode ∧ resp.statusCode ≤ 299)
    (hbody : resp.bodyRead = Except.ok body)
    (hffz : resp.ffzCache ≠ "")
    (hdur : parseInt64 resp.ffzCache = some n) :
    (SendRemoteCommand st remoteCommand data auth (CallOutcome.response resp)
        now ju).2 = Except.ok body ∧
    cacheEntry (SendRemoteCommand st remoteCommand data auth
        (CallOutcome.response resp) now ju).1.responseCache
        (getCacheKey remoteCommand data) = some (body, now + n) ∧
    healthGet (SendRemoteCommand st remoteCommand data auth
        (CallOutcome.response resp) now ju).1.lastSuccess
        ("/cmd/" ++ remoteCommand) = some now ∧
    healthGet (SendRemoteCommand st remoteCommand data auth
        (CallOutcome.response resp) now ju).1.lastSuccess bPathOtherCommand =
      some now := by
  rcases resp with ⟨sc, ct, ffz, br⟩
  simp only at hbody hffz hdur h2xx
  subst hbody
  obtain ⟨hlo, hhi⟩ := h2xx
  have h401 : ¬ sc = 401 := by omega
  have hrange : ¬ (sc < 200 ∨ sc > 299) := by omega
  have h : SendRemoteCommand st remoteCommand data auth
      (CallOutcome.response ⟨sc, ct, ffz, Except.ok body⟩) now ju =
      (⟨cacheSet st.responseCache (getCacheKey remoteCommand data) body
          (now + n),
        healthSet (healthSet st.lastSuccess bPathOtherCommand now)
          ("/cmd/" ++ remoteCommand) now⟩, Except.ok body) := by
    simp [SendRemoteCommand, remoteCommandCacheStep, h401, hrange, hffz, hdur]
  rw [h]
  exact ⟨rfl, cacheEntry_cacheSet_self _ _ _ _,
    healthGet_healthSet_self _ _ _, healthGet_healthSet_pair _ _ _ _⟩

/-- Witness for C1 at a concrete 200 response with `FFZ-Cache: 5`. -/
theorem sendRemoteCommand_2xx_cache_hint_witness :
    (SendRemoteCommand ⟨[], []⟩ "echo" "x" ⟨"alice", true⟩
        (CallOutcome.response ⟨200, "text/plain", "5", Except.ok "BODY"⟩) 100
        (fun _ => Except.error "no")).2 = Except.ok "BODY" ∧
    cacheEntry (SendRemoteCommand ⟨[], []⟩ "echo" "x" ⟨"alice", true⟩
        (CallOutcome.response ⟨200, "text/plain", "5", Except.ok "BODY"⟩) 100
        (fun _ => Except.error "no")).1.responseCache
        (getCacheKey "echo" "x") = some ("BODY", 105) ∧
    healthGet (SendRemoteCommand ⟨[], []⟩ "echo" "x" ⟨"alice", true⟩
        (CallOutcome.response ⟨200, "text/plain", "5", Except.ok "BODY"⟩) 100
        (fun _ => Except.error "no")).1.lastSuccess ("/cmd/" ++ "echo") =
      some 100 ∧
    healthGet (SendRemoteCommand ⟨[], []⟩ "echo" "x" ⟨"alice", true⟩
        (CallOutcome.response ⟨200, "text/plain", "5", Except.ok "BODY"⟩) 100
        (fun _ => Except.error "no")).1.lastSuccess bPathOtherCommand =
      some 100 :=
  sendRemoteCommand_2xx_cache_hint ⟨[], []⟩ "echo" "x" ⟨"alice", true⟩
    ⟨200, "text/plain", "5", Except.ok "BODY"⟩ 100 (fun _ => Except.error "no")
    "BODY" 5 (by constructor <;> decide) rfl (by decide) rfl

/-- C5 counterexample: with status 500, Content-Type `" application/json"`
(leading space, no parameters) and a body that parses as JSON, the claim's
strip-then-trim transformation yields exactly `"application/json"`, yet the
call returns the generic backend HTTP error rather than any forwarded
backend error: the code trims only when the header contains a semicolon. -/
theorem sendRemoteCommand_content_type_counterexample :
    ¬ (specStripContentType " application/json" = "application/json" →
       ∃ j, (SendRemoteCommand ⟨[], []⟩ "echo" "x" ⟨"alice", true⟩
           (CallOutcome.response ⟨500, " application/json", "",
             Except.ok "\x7b\x7d"⟩) 100
           (fun s => if s = "\x7b\x7d" then Except.ok (Json.obj [])
                     else Except.error "syntax")).2 =
         Except.error (BackendError.forwardedFromBackend j)) := by
  intro h
  obtain ⟨j, hj⟩ := h rfl
  have he : (SendRemoteCommand ⟨[], []⟩ "echo" "x" ⟨"alice", true⟩
      (CallOutcome.response ⟨500, " application/json", "",
        Except.ok "\x7b\x7d"⟩) 100
      (fun s => if s = "\x7b\x7d" then Except.ok (Json.obj [])
                else Except.error "syntax")).2 =
      Except.error (BackendError.httpError 500) := rfl
  rw [he] at hj
  simp at hj

/-- Claim C5 (amended): for a non-2xx, non-401 response with readable body,
the error classification keys on the Content-Type header value processed as
the code does - the part before the first semicolon is trimmed only when a
semicolon is present, otherwise the value is compared verbatim.  If that
processed value is exactly `application/json`: a body that parses as JSON
yields the forwarded backend error whose string form is the compact
re-serialization of the parsed value, and a parse failure yields the
distinct decode error; any other processed value yields the generic backend
HTTP error with the status code.  In every branch the state (hence the
cache) is unchanged. -/
theorem sendRemoteCommand_non2xx_error_classification
    (st : BackendState) (remoteCommand data : String) (auth : AuthInfo)
    (resp : HttpResponse) (now : Int) (ju : String → Except String Json)
    (body : String)
    (hbody : resp.bodyRead = Except.ok body)
    (h401 : resp.statusCode ≠ 401)
    (hout : resp.statusCode < 200 ∨ resp.statusCode > 299) :
    (∀ j, stripContentType resp.contentType = "application/json" →
       ju body = Except.ok j →
       SendRemoteCommand st remoteCommand data auth
           (CallOutcome.response resp) now ju =
         (st, Except.error (BackendError.forwardedFromBackend j)) ∧
       errorString (BackendError.forwardedFromBackend j) = jsonCompact j) ∧
    (∀ e, stripContentType resp.contentType = "application/json" →
       ju body = Except.error e →
       SendRemoteCommand st remoteCommand data auth
           (CallOutcome.response resp) now ju =
         (st, Except.error (BackendError.jsonDecodeError e body))) ∧
    (stripContentType resp.contentType ≠ "application/json" →
       SendRemoteCommand st remoteCommand data auth
           (CallOutcome.response resp) now ju =
         (st, Except.error (BackendError.httpError resp.statusCode))) := by
  rcases resp with ⟨sc, ct, ffz, br⟩
  simp only at hbody h401 hout
  subst hbody
  refine ⟨?_, ?_, ?_⟩
  · intro j hct hj
    exact ⟨by simp [SendRemoteCommand, h401, hout, hct, hj], rfl⟩
  · intro e hct hj
    simp [SendRemoteCommand, h401, hout, hct, hj]
  · intro hct
    simp [SendRemoteCommand, h401, hout, hct]

/-- Witness for the amended C5: a 500 with `application/json; charset=utf-8`
and a parsing body yields the forwarded error, and a 500 with `text/plain`
yields the generic HTTP error. -/
theorem sendRemoteCommand_non2xx_error_classification_witness :
    (SendRemoteCommand ⟨[], []⟩ "echo" "x" ⟨"alice", true⟩
        (CallOutcome.response ⟨500, "application/json; charset=utf-8", "",
          Except.ok "\x7b\x7d"⟩) 100
        (fun s => if s = "\x7b\x7d" then Except.ok (Json.obj [])
                  else Except.error "syntax") =
      (⟨[], []⟩,
       Except.error (BackendError.forwardedFromBackend (Json.obj []))) ∧
     errorString (BackendError.forwardedFromBackend (Json.obj [])) =
       jsonCompact (Json.obj [])) ∧
    SendRemoteCommand ⟨[], []⟩ "echo" "x" ⟨"alice", true⟩
        (CallOutcome.response ⟨500, "text/plain", "", Except.ok "oops"⟩) 100
        (fun _ => Except.error "syntax") =
      (⟨[], []⟩, Except.error (BackendError.httpError 500)) :=
  ⟨(sendRemoteCommand_non2xx_error_classification ⟨[], []⟩ "echo" "x"
      ⟨"alice", true⟩ ⟨500, "application/json; charset=utf-8", "",
        Except.ok "\x7b\x7d"⟩ 100
      (fun s => if s = "\x7b\x7d" then Except.ok (Json.obj [])
                else Except.error "syntax") "\x7b\x7d" rfl (by decide)
      (by right; decide)).1 (Json.obj []) rfl rfl,
   (sendRemoteCommand_non2xx_error_classification ⟨[], []⟩ "echo" "x"
      ⟨"alice", true⟩ ⟨500, "text/plain", "", Except.ok "oops"⟩ 100
      (fun _ => Except.error "syntax") "oops" rfl (by decide)
      (by right; decide)).2.2 (by decide)⟩

/-- Claim C7: both topic-notice operations seal exactly the fields
`channels` (the comma-joined topic names) and `added` (`"t"` for new-topic,
`"f"` for cleanup); a 2xx response sets the add-topic bucket to `now` and
returns nil; a non-2xx response returns `ErrBackendNotOK` with the status
code and the body text (a body-read failure being replaced by the
explanatory message in the body position) and leaves the state - hence the
add-topic bucket - unchanged. -/
theorem topicNotice_fields_health_and_errors
    (st : BackendState) (topic : String) (topics : List String)
    (resp : HttpResponse) (now : Int) :
    (SendNewTopicNotice st topic (CallOutcome.response resp) now).1 =
      [("channels", topic), ("added", "t")] ∧
    (SendCleanupTopicsNotice st topics (CallOutcome.response resp) now).1 =
      [("channels", String.intercalate "," topics), ("added", "f")] ∧
    (200 ≤ resp.statusCode ∧ resp.statusCode ≤ 299 →
       (SendNewTopicNotice st topic (CallOutcome.response resp) now).2 =
         ({ st with lastSuccess := healthSet st.lastSuccess bPathAddTopic now },
          none) ∧
       healthGet (healthSet st.lastSuccess bPathAddTopic now) bPathAddTopic =
         some now) ∧
    (resp.statusCode < 200 ∨ resp.statusCode > 299 →
       (∀ body, resp.bodyRead = Except.ok body →
          (SendNewTopicNotice st topic (CallOutcome.response resp) now).2 =
            (st, some (BackendError.backendNotOK resp.statusCode body))) ∧
       (∀ msg, resp.bodyRead = Except.error msg →
          (SendNewTopicNotice st topic (CallOutcome.response resp) now).2 =
            (st, some (BackendError.backendNotOK resp.statusCode
              ("(error reading non-2xx response): " ++ msg))))) := by
  rcases resp with ⟨sc, ct, ffz, br⟩
  refine ⟨?_, ?_, ?_, ?_⟩
  · simp [SendNewTopicNotice, sendTopicNotice, topicNoticeForm, formSet]
  · simp [SendCleanupTopicsNotice, sendTopicNotice, topicNoticeForm, formSet]
  · intro h2xx
    obtain ⟨hlo, hhi⟩ := h2xx
    simp only at hlo hhi
    have hrange : ¬ (sc < 200 ∨ sc > 299) := by omega
    constructor
    · simp [SendNewTopicNotice, sendTopicNotice, hrange]
    · exact healthGet_healthSet_self _ _ _
  · intro hout
    simp only at hout
    constructor
    · intro body hb
      simp only at hb
      subst hb
      simp [SendNewTopicNotice, sendTopicNotice, hout]
    · intro msg hb
      simp only at hb
      subst hb
      simp [SendNewTopicNotice, sendTopicNotice, hout]

/-- Witness for C7: concrete new-topic and cleanup calls, a 200 response, a
500 response with readable body, and a 500 response whose body read fails. -/
theorem topicNotice_fields_health_and_errors_witness :
    (SendNewTopicNotice ⟨[], []⟩ "room.x" (CallOutcome.response
        ⟨200, "", "", Except.ok "ok"⟩) 100).1 =
      [("channels", "room.x"), ("added", "t")] ∧
    (SendCleanupTopicsNotice ⟨[], []⟩ ["room.a", "room.b"]
        (CallOutcome.response ⟨200, "", "", Except.ok "ok"⟩) 100).1 =
      [("channels", String.intercalate "," ["room.a", "room.b"]),
       ("added", "f")] ∧
    (SendNewTopicNotice ⟨[], []⟩ "room.x" (CallOutcome.response
        ⟨200, "", "", Except.ok "ok"⟩) 100).2 =
      ({ responseCache := [], lastSuccess := healthSet [] bPathAddTopic 100 },
       none) ∧
    (SendNewTopicNotice ⟨[], []⟩ "room.x" (CallOutcome.response
        ⟨500, "", "", Except.ok "oops"⟩) 100).2 =
      (⟨[], []⟩, some (BackendError.backendNotOK 500 "oops")) ∧
    (SendNewTopicNotice ⟨[], []⟩ "room.x" (CallOutcome.response
        ⟨500, "", "", Except.error "cut"⟩) 100).2 =
      (⟨[], []⟩, some (BackendError.backendNotOK 500
        ("(error reading non-2xx response): " ++ "cut"))) :=
  ⟨(topicNotice_fields_health_and_errors ⟨[], []⟩ "room.x"
      ["room.a", "room.b"] ⟨200, "", "", Except.ok "ok"⟩ 100).1,
   (topicNotice_fields_health_and_errors ⟨[], []⟩ "room.x"
      ["room.a", "room.b"] ⟨200, "", "", Except.ok "ok"⟩ 100).2.1,
   ((topicNotice_fields_health_and_errors ⟨[], []⟩ "room.x"
      ["room.a", "room.b"] ⟨200, "", "", Except.ok "ok"⟩ 100).2.2.1
      (by constructor <;> decide)).1,
   ((topicNotice_fields_health_and_errors ⟨[], []⟩ "room.x"
      ["room.a", "room.b"] ⟨500, "", "", Except.ok "oops"⟩ 100).2.2.2
      (by right; decide)).1 "oops" rfl,
   ((topicNotice_fields_health_and_errors ⟨[], []⟩ "room.x"
      ["room.a", "room.b"] ⟨500, "", "", Except.error "cut"⟩ 100).2.2.2
      (by right; decide)).2 "cut" rfl⟩

/-- Claim C8: `SendAggregatedData` on a 2xx response sets the
aggregate-stats bucket to `now`, leaves the cache and every other health
bucket unchanged, and returns nil; on a non-2xx response it returns the
generic backend HTTP error with the status code; it never inspects the
response body (the result is identical for any two body-read outcomes), and
its result carries no response payload. -/
theorem sendAggregatedData_updates_only_aggStats
    (st : BackendState) (resp : HttpResponse) (now : Int) :
    (200 ≤ resp.statusCode ∧ resp.statusCode ≤ 299 →
       SendAggregatedData st (CallOutcome.response resp) now =
         ({ st with lastSuccess := healthSet st.lastSuccess bPathAggStats now },
          none) ∧
       healthGet (healthSet st.lastSuccess bPathAggStats now) bPathAggStats =
         some now ∧
       (SendAggregatedData st (CallOutcome.response resp) now).1.responseCache =
         st.responseCache ∧
       (∀ bucket, bucket ≠ bPathAggStats →
          healthGet (SendAggregatedData st
              (CallOutcome.response resp) now).1.lastSuccess bucket =
            healthGet st.lastSuccess bucket)) ∧
    (resp.statusCode < 200 ∨ resp.statusCode > 299 →
       SendAggregatedData st (CallOutcome.response resp) now =
         (st, some (BackendError.httpError resp.statusCode))) ∧
    (∀ br1 br2 : Except String String,
       SendAggregatedData st (CallOutcome.response
           ⟨resp.statusCode, resp.contentType, resp.ffzCache, br1⟩) now =
         SendAggregatedData st (CallOutcome.response
           ⟨resp.statusCode, resp.contentType, resp.ffzCache, br2⟩) now) := by
  rcases resp with ⟨sc, ct, ffz, br⟩
  refine ⟨?_, ?_, ?_⟩
  · intro h2xx
    obtain ⟨hlo, hhi⟩ := h2xx
    simp only at hlo hhi
    have hrange : ¬ (sc < 200 ∨ sc > 299) := by omega
    have h : SendAggregatedData st (CallOutcome.response
        ⟨sc, ct, ffz, br⟩) now =
        ({ st with lastSuccess := healthSet st.lastSuccess bPathAggStats now },
         none) := by
      simp [SendAggregatedData, hrange]
    refine ⟨h, healthGet_healthSet_self _ _ _, by rw [h], ?_⟩
    intro bucket hb
    rw [h]
    exact healthGet_healthSet_ne st.lastSuccess bPathAggStats bucket now hb
  · intro hout
    simp only at hout
    simp [SendAggregatedData, hout]
  · intro br1 br2
    rfl

/-- Witness for C8: a concrete 2xx call touching only the stats bucket (the
pre-existing command bucket keeps its value), a concrete 503 call, and
body-read independence at status 204. -/
theorem sendAggregatedData_updates_only_aggStats_witness :
    SendAggregatedData ⟨[("echo/x", "BODY", 105)], [("/cmd/", 7)]⟩
        (CallOutcome.response ⟨204, "", "", Except.ok ""⟩) 100 =
      ({ responseCache := [("echo/x", "BODY", 105)],
         lastSuccess := healthSet [("/cmd/", 7)] bPathAggStats 100 }, none) ∧
    (SendAggregatedData ⟨[("echo/x", "BODY", 105)], [("/cmd/", 7)]⟩
        (CallOutcome.response ⟨204, "", "", Except.ok ""⟩) 100).1.responseCache =
      [("echo/x", "BODY", 105)] ∧
    healthGet (SendAggregatedData ⟨[("echo/x", "BODY", 105)], [("/cmd/", 7)]⟩
        (CallOutcome.response ⟨204, "", "", Except.ok ""⟩)
        100).1.lastSuccess "/cmd/" = healthGet [("/cmd/", 7)] "/cmd/" ∧
    SendAggregatedData ⟨[], []⟩
        (CallOutcome.response ⟨503, "", "", Except.ok "down"⟩) 100 =
      (⟨[], []⟩, some (BackendError.httpError 503)) ∧
    SendAggregatedData ⟨[], []⟩
        (CallOutcome.response ⟨204, "", "", Except.ok "a"⟩) 100 =
      SendAggregatedData ⟨[], []⟩
        (CallOutcome.response ⟨204, "", "", Except.error "b"⟩) 100 :=
  ⟨((sendAggregatedData_updates_only_aggStats
      ⟨[("echo/x", "BODY", 105)], [("/cmd/", 7)]⟩ ⟨204, "", "", Except.ok ""⟩
      100).1 (by constructor <;> decide)).1,
   ((sendAggregatedData_updates_only_aggStats
      ⟨[("echo/x", "BODY", 105)], [("/cmd/", 7)]⟩ ⟨204, "", "", Except.ok ""⟩
      100).1 (by constructor <;> decide)).2.2.1,
   ((sendAggregatedData_updates_only_aggStats
      ⟨[("echo/x", "BODY", 105)], [("/cmd/", 7)]⟩ ⟨204, "", "", Except.ok ""⟩
      100).1 (by constructor <;> decide)).2.2.2 "/cmd/" (by decide),
   (sendAggregatedData_updates_only_aggStats ⟨[], []⟩
      ⟨503, "", "", Except.ok "down"⟩ 100).2.1 (by right; decide),
   (sendAggregatedData_updates_only_aggStats ⟨[], []⟩
      ⟨204, "", "", Except.ok "unused"⟩ 100).2.2 (Except.ok "a")
      (Except.error "b")⟩
